import Mathlib

/-!
Shallow embedding, in Lean 4, of the video-overlay image manipulators from
`pupil_src/shared_modules/video_overlay/utils/image_manipulation.py`
(`ScaleTransform`, `HorizontalFlip`, `VerticalFlip`, `PupilRenderer`).

Modelling conventions:

* Python floats are modelled as real numbers.  Where the code's behaviour
  on NaN matters (the projected-sphere fields) a float is a `PyFloat`
  (`nan` or a real value); where infinities matter as well (the scale
  factor) it is a `PyNum`.  IEEE rounding error is not modelled.
* `int(x)` is truncation toward zero (`truncInt`); applied to NaN it
  raises `ValueError` (`pyInt`).
* The OpenCV and NumPy calls are external collaborators and are modelled
  from their documented contracts (`cv2_resize`, `getRotationMatrix2D`,
  `np_fliplr`, `np_flipud`).  The renderer's drawing calls
  (`cv2.polylines`, `cv2.circle`, `cv2.ellipse`) are recorded as a trace
  of `DrawCmd` values, in call order, rather than as pixel mutations; an
  empty trace means the buffer is untouched.
* `PupilRenderer.apply_to` returns, besides the image object it was given
  and the draw trace, the number of times the injected `pupil_getter`
  callable was invoked, making the call count observable.
* Python raising an exception is modelled with `Except`: a raised,
  uncaught exception is an `Except.error` result.
-/

open Real

namespace ImageManipulation

/-- Python exception classes relevant to this module: `ValueError` (raised
by `int()` on NaN) and the OpenCV parameter-check failure raised by
`cv2.resize` on a malformed scale factor (the spec's `InvalidParameter`). -/
inductive PyErr
  | valueError
  | invalidParameter
  deriving DecidableEq

/-- A Python float as seen by the projected-sphere fields: either NaN or a
real value.  NaN is the documented ill-conditioned case for the sphere
geometry; infinities play no role there. -/
inductive PyFloat
  | nan
  | val (r : ℝ)

/-- A Python float for the scale factor, where the non-finite values
matter: NaN, the two infinities, or a real value. -/
inductive PyNum
  | nan
  | inf
  | ninf
  | val (r : ℝ)

/-- Python `int(r)` on a finite float truncates toward zero. -/
noncomputable def truncInt (r : ℝ) : ℤ :=
  if 0 ≤ r then ⌊r⌋ else ⌈r⌉

/-- Python `int(x)` on a possibly-NaN float: raises `ValueError` on NaN
(`ValueError: cannot convert float NaN to integer`), otherwise truncates
toward zero. -/
noncomputable def pyInt : PyFloat → Except PyErr ℤ
  | .nan => .error .valueError
  | .val r => .ok (truncInt r)

/-- Halving a possibly-NaN float (`v / 2` in the sphere-axes conversion);
NaN propagates. -/
noncomputable def PyFloat.halve : PyFloat → PyFloat
  | .nan => .nan
  | .val r => .val (r / 2)

/-- The shape of a raster buffer: width, height and channel depth.  The
pixel contents of a resized buffer are produced by OpenCV's interpolation,
an external collaborator, so only the shape is modelled for `cv2.resize`. -/
structure RasterShape where
  width : ℕ
  height : ℕ
  channels : ℕ
  deriving DecidableEq

/-- Model of `cv2.resize(image, (0, 0), fx=a, fy=b)` from OpenCV's
documented contract: with an empty `dsize`, the output size is computed as
`(round(a * width), round(b * height))`, and OpenCV asserts that the
scale factors are positive (which rejects NaN) and that the computed size
is non-empty, raising `cv2.error` — the spec's `InvalidParameter` —
otherwise; an infinite scale likewise fails (saturated size).  The channel
depth is preserved.  Rounding ties are taken half-up here rather than
OpenCV's half-to-even; no claim depends on a tie. -/
noncomputable def cv2_resize (image : RasterShape) (fx fy : PyNum) :
    Except PyErr RasterShape :=
  match fx, fy with
  | .val a, .val b =>
      if 0 < round ((image.width : ℝ) * a) ∧ 0 < round ((image.height : ℝ) * b) then
        .ok ⟨(round ((image.width : ℝ) * a)).toNat,
             (round ((image.height : ℝ) * b)).toNat,
             image.channels⟩
      else .error .invalidParameter
  | _, _ => .error .invalidParameter

/-- `ScaleTransform.apply_to`: the body is exactly
`return cv2.resize(image, (0, 0), fx=parameter, fy=parameter)`; there is
no guard and no error handling, and the `is_fake_frame` keyword argument
is absorbed unused by `**kwargs`. -/
noncomputable def ScaleTransform.apply_to (image : RasterShape) (parameter : PyNum)
    (is_fake_frame : Bool) : Except PyErr RasterShape :=
  cv2_resize image parameter parameter

/-- Model of `np.fliplr`: reverse the order of the entries within each row
(column order), per the NumPy contract.  Images are rows of pixels. -/
def np_fliplr {α : Type} (image : List (List α)) : List (List α) :=
  image.map List.reverse

/-- Model of `np.flipud`: reverse the row order, per the NumPy contract. -/
def np_flipud {α : Type} (image : List (List α)) : List (List α) :=
  image.reverse

/-- `HorizontalFlip.apply_to`: `np.fliplr(image)` when
`parameter and not is_fake_frame`, otherwise the image itself. -/
def HorizontalFlip.apply_to {α : Type} (image : List (List α)) (parameter : Bool)
    (is_fake_frame : Bool) : List (List α) :=
  if parameter && !is_fake_frame then np_fliplr image else image

/-- `VerticalFlip.apply_to`: `np.flipud(image)` when
`parameter and not is_fake_frame`, otherwise the image itself. -/
def VerticalFlip.apply_to {α : Type} (image : List (List α)) (parameter : Bool)
    (is_fake_frame : Bool) : List (List α) :=
  if parameter && !is_fake_frame then np_flipud image else image

/-- Model of `np.linspace(start, stop, num, endpoint=False)`: `num`
samples `start + (stop - start) * k / num` for `k = 0, …, num - 1`. -/
noncomputable def linspace_endpointFalse (start stop : ℝ) (num : ℕ) : List ℝ :=
  (List.range num).map (fun (k : ℕ) => start + (stop - start) * (k : ℝ) / (num : ℝ))

/-- A 2×3 affine matrix as returned by `cv2.getRotationMatrix2D`. -/
structure AffineMat where
  m00 : ℝ
  m01 : ℝ
  m02 : ℝ
  m10 : ℝ
  m11 : ℝ
  m12 : ℝ

/-- Model of `cv2.getRotationMatrix2D(center, angle, scale)` from the
OpenCV contract: with `θ = angle · π / 180`, `α = scale · cos θ`,
`β = scale · sin θ`, the matrix is
`[[α, β, (1-α)·cx - β·cy], [-β, α, β·cx + (1-α)·cy]]`. -/
noncomputable def getRotationMatrix2D (center : ℝ × ℝ) (angle scale : ℝ) : AffineMat :=
  let θ := angle * π / 180
  let α := scale * Real.cos θ
  let β := scale * Real.sin θ
  ⟨α, β, (1 - α) * center.1 - β * center.2,
   -β, α, β * center.1 + (1 - α) * center.2⟩

/-- Application of a 2×3 affine matrix to a point in homogeneous
coordinates `(x, y, 1)`, as the `np.matmul(rot, pts.T)` does. -/
noncomputable def AffineMat.apply (M : AffineMat) (p : ℝ × ℝ) : ℝ × ℝ :=
  (M.m00 * p.1 + M.m01 * p.2 + M.m02, M.m10 * p.1 + M.m11 * p.2 + M.m12)

/-- `PupilRenderer.get_ellipse_points(center, axes, angle, num_pts=10)`:
sample `num_pts` parameter values with `np.linspace(0, 2π, num_pts,
endpoint=False)`, take `(a/2 · cos t, b/2 · sin t)`, apply
`cv2.getRotationMatrix2D((0, 0), -angle, 1)` to the homogeneous points,
then translate by the center. -/
noncomputable def get_ellipse_points (center axes : ℝ × ℝ) (angle : ℝ)
    (num_pts : ℕ := 10) : List (ℝ × ℝ) :=
  let c1 := center.1
  let c2 := center.2
  let a := axes.1
  let b := axes.2
  let steps := linspace_endpointFalse 0 (2 * π) num_pts
  let rot := getRotationMatrix2D (0, 0) (-angle) 1
  let pts_rot := steps.map (fun t => rot.apply (a / 2 * Real.cos t, b / 2 * Real.sin t))
  pts_rot.map (fun p => (p.1 + c1, p.2 + c2))

/-- An RGBA-style color tuple as passed to the OpenCV drawing calls.  The
alpha slot is a real number: the pupil-ellipse calls pass an `int`-cast
value and the sphere call passes the float `255 * model_confidence`. -/
abbrev Color := ℝ × ℝ × ℝ × ℝ

/-- One OpenCV drawing call made by the renderer, recorded with the
arguments the code passes (the mutated target buffer is implicit: all
calls of one `apply_to` target the same buffer, in trace order). -/
inductive DrawCmd
  | polylines (pts : List (ℤ × ℤ)) (isClosed : Bool) (color : Color) (thickness : ℤ)
  | circle (center : ℤ × ℤ) (radius : ℕ) (color : Color) (thickness : ℤ)
  | cvEllipse (center : ℤ × ℤ) (axes : ℤ × ℤ) (angle : ℤ) (startAngle endAngle : ℕ)
      (color : Color) (thickness : ℤ)

/-- The color argument of a recorded drawing call. -/
def DrawCmd.color : DrawCmd → Color
  | .polylines _ _ c _ => c
  | .circle _ _ c _ => c
  | .cvEllipse _ _ _ _ _ c _ => c

/-- The alpha component of the color argument of a recorded drawing call. -/
def DrawCmd.alpha (c : DrawCmd) : ℝ :=
  c.color.2.2.2

/-- Model of `np.asarray(outline, dtype="i")` on a list of float points:
C-style float-to-int conversion truncates toward zero (int32 wraparound is
not modelled; the ellipse geometry stays far from 2^31). -/
noncomputable def toInt32Points (pts : List (ℝ × ℝ)) : List (ℤ × ℤ) :=
  pts.map (fun p => (truncInt p.1, truncInt p.2))

/-- The `"ellipse"` entry of a pupil datum: center, axes and angle
(degrees), all finite floats (NaN is documented only for the projected
sphere). -/
structure Ellipse where
  center : ℝ × ℝ
  axes : ℝ × ℝ
  angle : ℝ

/-- A 2D pupil datum as consumed by `render_pupil_2d`. -/
structure Pupil2d where
  ellipse : Ellipse
  confidence : ℝ

/-- The `"projected_sphere"` entry of a 3D pupil datum; its fields are the
ones whose NaN behaviour the code guards against. -/
structure ProjectedSphere where
  center : PyFloat × PyFloat
  axes : PyFloat × PyFloat
  angle : PyFloat

/-- A 3D pupil datum as consumed by `render_pupil_3d`;
`pupil_position.get("projected_sphere", None)` is an `Option`. -/
structure Pupil3d where
  ellipse : Ellipse
  confidence : ℝ
  model_confidence : ℝ
  projected_sphere : Option ProjectedSphere

/-- A value returned in one slot of the `pupil_getter()` pair, with Python
truthiness: `None`, a falsy-but-present empty dict, or a populated datum. -/
inductive PyOpt (α : Type)
  | none
  | emptyDict
  | val (a : α)

/-- Python truthiness of a `pupil_getter` slot: only a populated datum is
truthy; `None` and an empty dict are falsy. -/
def PyOpt.truthy {α : Type} : PyOpt α → Bool
  | .val _ => true
  | _ => false

/-- `PupilRenderer.render_ellipse(image, ellipse, color)`: one
`cv2.polylines` call on the int-cast sampled outline (closed, thickness
1), then one filled `cv2.circle` of radius 5 at the int-cast center. -/
noncomputable def render_ellipse (ellipse : Ellipse) (color : Color) : List DrawCmd :=
  let outline := toInt32Points (get_ellipse_points ellipse.center ellipse.axes ellipse.angle)
  let center := (truncInt ellipse.center.1, truncInt ellipse.center.2)
  [.polylines outline true color 1, .circle center 5 color (-1)]

/-- `PupilRenderer.render_pupil_2d`: draw the ellipse in color
`(255, 127, 0)` with alpha `int(confidence * 255)`. -/
noncomputable def render_pupil_2d (pupil_position : Pupil2d) : List DrawCmd :=
  let conf := truncInt (pupil_position.confidence * 255)
  render_ellipse pupil_position.ellipse (255, 127, 0, (conf : ℝ))

/-- The `cv2.ellipse` call for the projected sphere, argument conversions
included, in Python evaluation order: `int(v)` over the center, `int(v/2)`
over the axes, `int(angle)`; the first NaN raises `ValueError`.  On
success the call draws an arc `0..360` in color `(26, 230, 0)` with alpha
`255 * model_confidence`, thickness 2. -/
noncomputable def sphereCmd (eye_ball : ProjectedSphere) (model_confidence : ℝ) :
    Except PyErr DrawCmd :=
  match pyInt eye_ball.center.1 with
  | .error e => .error e
  | .ok cx =>
    match pyInt eye_ball.center.2 with
    | .error e => .error e
    | .ok cy =>
      match pyInt eye_ball.axes.1.halve with
      | .error e => .error e
      | .ok ax =>
        match pyInt eye_ball.axes.2.halve with
        | .error e => .error e
        | .ok ay =>
          match pyInt eye_ball.angle with
          | .error e => .error e
          | .ok ang =>
            .ok (.cvEllipse (cx, cy) (ax, ay) ang 0 360
              (26, 230, 0, 255 * model_confidence) 2)

/-- `PupilRenderer.render_pupil_3d`: draw the ellipse in color
`(0, 0, 255)` with alpha `int(confidence * 255)`; then, if a projected
sphere is present, attempt its `cv2.ellipse` call inside
`try: … except ValueError: pass` — a `ValueError` (NaN conversion) skips
just that sub-drawing, any other exception propagates. -/
noncomputable def render_pupil_3d (pupil_position : Pupil3d) :
    Except PyErr (List DrawCmd) :=
  let conf := truncInt (pupil_position.confidence * 255)
  let base := render_ellipse pupil_position.ellipse (0, 0, 255, (conf : ℝ))
  match pupil_position.projected_sphere with
  | Option.none => .ok base
  | Option.some eye_ball =>
    match sphereCmd eye_ball pupil_position.model_confidence with
    | .ok cmd => .ok (base ++ [cmd])
    | .error .valueError => .ok base
    | .error e => .error e

/-- `PupilRenderer.apply_to(image, parameter, is_fake_frame)`: when
`parameter and not is_fake_frame`, invoke `pupil_getter()` once (the
result pair is this model's `pupil_getter` argument, and the returned
count of invocations makes "never called" observable), render a truthy 2D
datum, then a truthy 3D datum, and return the same image object; otherwise
return the image with no getter call and no drawing.  The draw trace is
returned alongside; an empty trace is an untouched buffer. -/
noncomputable def PupilRenderer.apply_to {Img : Type}
    (pupil_getter : PyOpt Pupil2d × PyOpt Pupil3d) (image : Img)
    (parameter : Bool) (is_fake_frame : Bool) :
    Except PyErr (Img × List DrawCmd × ℕ) :=
  if parameter && !is_fake_frame then
    let pupil_pos_2d := pupil_getter.1
    let pupil_pos_3d := pupil_getter.2
    let draws2d :=
      match pupil_pos_2d with
      | .val p => render_pupil_2d p
      | _ => []
    match pupil_pos_3d with
    | .val p =>
      match render_pupil_3d p with
      | .ok draws3d => .ok (image, draws2d ++ draws3d, 1)
      | .error e => .error e
    | _ => .ok (image, draws2d, 1)
  else
    .ok (image, [], 0)

/-! Shared helper lemmas. -/

/-- Rounding a non-positive real gives a non-positive integer. -/
theorem round_nonpos_of_nonpos {x : ℝ} (h : x ≤ 0) : round x ≤ 0 := by
  have h2 : round x ≤ round (0 : ℝ) := by
    rw [round_eq, round_eq]
    exact Int.floor_le_floor (by linarith)
  simpa using h2

/-! Claim theorems. -/

/-- C2: for every image and each of `HorizontalFlip`, `VerticalFlip` and
`PupilRenderer`, whenever the guard fails (`parameter` is false, or
`is_fake_frame` is true), `apply_to` returns the input buffer itself,
unchanged — for the renderer additionally with an empty draw trace (no
partial writes) and no `pupil_getter` call. -/
theorem C2_guard_fail_identity {α Img : Type} (img : List (List α)) (imgR : Img)
    (pupil_getter : PyOpt Pupil2d × PyOpt Pupil3d) (parameter is_fake_frame : Bool)
    (h : parameter = false ∨ is_fake_frame = true) :
    HorizontalFlip.apply_to img parameter is_fake_frame = img ∧
    VerticalFlip.apply_to img parameter is_fake_frame = img ∧
    PupilRenderer.apply_to pupil_getter imgR parameter is_fake_frame = .ok (imgR, [], 0) := by
  have hg : (parameter && !is_fake_frame) = false := by
    rcases h with h | h <;> simp [h]
  refine ⟨?_, ?_, ?_⟩ <;>
    simp [HorizontalFlip.apply_to, VerticalFlip.apply_to, PupilRenderer.apply_to, hg]

/-- Witness for C2 at a concrete image, `parameter = false`. -/
theorem C2_witness :
    (false = false ∨ false = true) ∧
    (HorizontalFlip.apply_to [[(1 : ℤ)]] false false = [[(1 : ℤ)]] ∧
     VerticalFlip.apply_to [[(1 : ℤ)]] false false = [[(1 : ℤ)]] ∧
     PupilRenderer.apply_to (PyOpt.none, PyOpt.none) (0 : ℕ) false false = .ok (0, [], 0)) :=
  ⟨Or.inl rfl,
   C2_guard_fail_identity [[(1 : ℤ)]] (0 : ℕ) (PyOpt.none, PyOpt.none) false false (Or.inl rfl)⟩

/-- C3: `ScaleTransform.apply_to` fails with `InvalidParameter` when the
scale factor is non-positive or non-finite, and the error is the returned
result itself — nothing in `apply_to` swallows it. -/
theorem C3_scale_invalid_parameter (image : RasterShape) (f : PyNum) (is_fake_frame : Bool)
    (h : f = .nan ∨ f = .inf ∨ f = .ninf ∨ ∃ r : ℝ, r ≤ 0 ∧ f = .val r) :
    ScaleTransform.apply_to image f is_fake_frame = .error .invalidParameter := by
  rcases h with h | h | h | ⟨r, hr, h⟩ <;> subst h
  · rfl
  · rfl
  · rfl
  · have hw : round ((image.width : ℝ) * r) ≤ 0 :=
      round_nonpos_of_nonpos (mul_nonpos_of_nonneg_of_nonpos (Nat.cast_nonneg _) hr)
    simp only [ScaleTransform.apply_to, cv2_resize]
    rw [if_neg]
    rintro ⟨h1, _⟩
    omega

/-- Witness for C3 at factor `-1`. -/
theorem C3_witness :
    ((PyNum.val (-1) : PyNum) = .nan ∨ (PyNum.val (-1) : PyNum) = .inf ∨
      (PyNum.val (-1) : PyNum) = .ninf ∨ ∃ r : ℝ, r ≤ 0 ∧ PyNum.val (-1) = .val r) ∧
    ScaleTransform.apply_to ⟨2, 2, 3⟩ (.val (-1)) false = .error .invalidParameter :=
  ⟨Or.inr (Or.inr (Or.inr ⟨-1, by norm_num, rfl⟩)),
   C3_scale_invalid_parameter ⟨2, 2, 3⟩ (.val (-1)) false
     (Or.inr (Or.inr (Or.inr ⟨-1, by norm_num, rfl⟩)))⟩

/-- C6: `PupilRenderer.apply_to` with `parameter = false`, or with
`is_fake_frame = true`, reports zero invocations of the injected
`pupil_getter` and returns the image untouched (empty draw trace). -/
theorem C6_guard_blocks_getter {Img : Type}
    (pupil_getter : PyOpt Pupil2d × PyOpt Pupil3d) (image : Img)
    (parameter is_fake_frame : Bool) (h : parameter = false ∨ is_fake_frame = true) :
    PupilRenderer.apply_to pupil_getter image parameter is_fake_frame = .ok (image, [], 0) := by
  have hg : (parameter && !is_fake_frame) = false := by
    rcases h with h | h <;> simp [h]
  simp [PupilRenderer.apply_to, hg]

/-- Witness for C6 with a fake frame and render enabled. -/
theorem C6_witness :
    (true = false ∨ true = true) ∧
    PupilRenderer.apply_to (PyOpt.none, PyOpt.none) (0 : ℕ) true true = .ok (0, [], 0) :=
  ⟨Or.inr rfl,
   C6_guard_blocks_getter (PyOpt.none, PyOpt.none) (0 : ℕ) true true (Or.inr rfl)⟩

/-- C9: applying `HorizontalFlip.apply_to` twice with `parameter = true`
on a non-fake frame returns the original image. -/
theorem C9_hflip_involution {α : Type} (img : List (List α)) :
    HorizontalFlip.apply_to (HorizontalFlip.apply_to img true false) true false = img := by
  simp [HorizontalFlip.apply_to, np_fliplr, List.map_map, Function.comp_def]

/-- C7: on a non-fake frame with `parameter = true`,
`HorizontalFlip.apply_to` mirrors along the horizontal axis (entry `j` of
a row becomes entry `length - 1 - j`) and `VerticalFlip.apply_to` mirrors
along the vertical axis (row `i` becomes row `length - 1 - i`). -/
theorem C7_flip_mirror (img : List (List ℤ)) (i j : ℕ)
    (hi : i < img.length) (hj : j < (img.getD i []).length) :
    ((HorizontalFlip.apply_to img true false).getD i []).getD j 0 =
      (img.getD i []).getD ((img.getD i []).length - 1 - j) 0 ∧
    (VerticalFlip.apply_to img true false).getD i [] =
      img.getD (img.length - 1 - i) [] := by
  have happ : HorizontalFlip.apply_to img true false = img.map List.reverse := rfl
  have happ2 : VerticalFlip.apply_to img true false = img.reverse := rfl
  have hIdx : img.getD i [] = img[i] := List.getD_eq_getElem _ _ hi
  constructor
  · rw [hIdx] at hj ⊢
    rw [happ]
    have h1 : (img.map List.reverse).getD i [] = img[i].reverse := by
      rw [List.getD_eq_getElem?_getD, List.getElem?_map, List.getElem?_eq_getElem hi]
      rfl
    rw [h1, List.getD_eq_getElem?_getD, List.getElem?_reverse hj,
      ← List.getD_eq_getElem?_getD]
  · rw [happ2, List.getD_eq_getElem?_getD, List.getElem?_reverse hi,
      ← List.getD_eq_getElem?_getD]

/-- Witness for C7 on the image `[[1, 2], [3, 4]]` at `i = 0`, `j = 1`. -/
theorem C7_witness :
    (0 < [[(1 : ℤ), 2], [3, 4]].length ∧ 1 < ([[(1 : ℤ), 2], [3, 4]].getD 0 []).length) ∧
    (((HorizontalFlip.apply_to [[(1 : ℤ), 2], [3, 4]] true false).getD 0 []).getD 1 0 =
        ([[(1 : ℤ), 2], [3, 4]].getD 0 []).getD
          (([[(1 : ℤ), 2], [3, 4]].getD 0 []).length - 1 - 1) 0 ∧
      (VerticalFlip.apply_to [[(1 : ℤ), 2], [3, 4]] true false).getD 0 [] =
        [[(1 : ℤ), 2], [3, 4]].getD ([[(1 : ℤ), 2], [3, 4]].length - 1 - 0) []) :=
  ⟨⟨by decide, by decide⟩, C7_flip_mirror [[(1 : ℤ), 2], [3, 4]] 0 1 (by decide) (by decide)⟩

/-- C8 counterexample: at the positive finite factor `1/10` on a 1×1
image, `ScaleTransform.apply_to` does not return a resampled buffer — the
computed output size rounds to zero and `cv2.resize` rejects it. -/
theorem C8_cex_tiny_factor :
    ScaleTransform.apply_to ⟨1, 1, 3⟩ (.val (1 / 10)) false = .error .invalidParameter := by
  simp only [ScaleTransform.apply_to, cv2_resize]
  rw [if_neg]
  rintro ⟨h1, -⟩
  norm_num [round_eq, Int.floor_eq_iff] at h1

/-- C8 (amended): `ScaleTransform.apply_to` always delegates to
`cv2.resize` — no short-circuit at factor `1.0` and no fake-frame guard —
and for a positive finite factor whose rounded output dimensions are both
positive it returns a buffer of dimensions
`(round(width·factor), round(height·factor))` with the channel depth
unchanged. -/
theorem C8_scale_resize (image : RasterShape) (r : ℝ) (is_fake_frame : Bool)
    (h0 : 0 < r)
    (hw : 0 < round ((image.width : ℝ) * r))
    (hh : 0 < round ((image.height : ℝ) * r)) :
    (∀ (f : PyNum) (fake : Bool), ScaleTransform.apply_to image f fake = cv2_resize image f f) ∧
    ScaleTransform.apply_to image (.val r) is_fake_frame =
      .ok ⟨(round ((image.width : ℝ) * r)).toNat,
           (round ((image.height : ℝ) * r)).toNat, image.channels⟩ := by
  refine ⟨fun f fake => rfl, ?_⟩
  simp only [ScaleTransform.apply_to, cv2_resize]
  rw [if_pos ⟨hw, hh⟩]

/-- Witness for C8 on a 4×3 image with factor `2` (and a fake frame,
which the transform ignores). -/
theorem C8_witness :
    ((0 : ℝ) < 2 ∧ 0 < round (((4 : ℕ) : ℝ) * 2) ∧ 0 < round (((3 : ℕ) : ℝ) * 2)) ∧
    ScaleTransform.apply_to ⟨4, 3, 3⟩ (.val 2) true =
      .ok ⟨(round (((4 : ℕ) : ℝ) * 2)).toNat, (round (((3 : ℕ) : ℝ) * 2)).toNat, 3⟩ :=
  ⟨⟨by norm_num, by norm_num, by norm_num⟩,
   (C8_scale_resize ⟨4, 3, 3⟩ 2 true (by norm_num) (by norm_num) (by norm_num)).2⟩

/-- C10: `PupilRenderer.apply_to` returns the identical image object in
every branch that returns at all, presence checks on the detections are by
truthiness (a present-but-falsy empty dict is skipped exactly as `None`),
and when both detections are falsy the buffer comes back unmodified even
though `pupil_getter` was invoked once. -/
theorem C10_truthiness :
    (∀ (Img : Type) (pupil_getter : PyOpt Pupil2d × PyOpt Pupil3d) (image : Img)
        (parameter is_fake_frame : Bool) (i : Img) (tr : List DrawCmd) (n : ℕ),
        PupilRenderer.apply_to pupil_getter image parameter is_fake_frame = .ok (i, tr, n) →
        i = image) ∧
    (∀ (Img : Type) (d3 : PyOpt Pupil3d) (image : Img) (parameter is_fake_frame : Bool),
        PupilRenderer.apply_to (.emptyDict, d3) image parameter is_fake_frame =
          PupilRenderer.apply_to (.none, d3) image parameter is_fake_frame) ∧
    (∀ (Img : Type) (d2 : PyOpt Pupil2d) (image : Img) (parameter is_fake_frame : Bool),
        PupilRenderer.apply_to (d2, .emptyDict) image parameter is_fake_frame =
          PupilRenderer.apply_to (d2, .none) image parameter is_fake_frame) ∧
    (∀ (Img : Type) (d2 : PyOpt Pupil2d) (d3 : PyOpt Pupil3d) (image : Img),
        d2.truthy = false → d3.truthy = false →
        PupilRenderer.apply_to (d2, d3) image true false = .ok (image, [], 1)) := by
  refine ⟨?_, ?_, ?_, ?_⟩
  · intro Img g image parameter fake i tr n h
    simp only [PupilRenderer.apply_to] at h
    split at h
    · split at h
      · split at h
        · injection h with h1
          injection h1 with ha hb
          exact ha.symm
        · cases h
      · injection h with h1
        injection h1 with ha hb
        exact ha.symm
    · injection h with h1
      injection h1 with ha hb
      exact ha.symm
  · intro Img d3 image parameter fake
    rfl
  · intro Img d2 image parameter fake
    rfl
  · intro Img d2 d3 image h2 h3
    cases d2 <;> cases d3 <;> (try rfl) <;> simp_all [PyOpt.truthy]

/-- Witness for C10: both detections falsy (an empty dict and `None`) —
the getter is called once and the buffer is untouched. -/
theorem C10_witness :
    ((PyOpt.emptyDict : PyOpt Pupil2d).truthy = false ∧
      (PyOpt.none : PyOpt Pupil3d).truthy = false) ∧
    PupilRenderer.apply_to (PyOpt.emptyDict, PyOpt.none) (0 : ℕ) true false =
      .ok (0, [], 1) :=
  ⟨⟨rfl, rfl⟩, C10_truthiness.2.2.2 ℕ PyOpt.emptyDict PyOpt.none 0 rfl rfl⟩

/-- C4 counterexample: at confidence `1/2` the code's drawing alpha is
`int(0.5 * 255) = 127` (truncation), while `round(0.5 * 255) = 128`, so
the alpha is not `round(confidence * 255)`. -/
theorem C4_cex_alpha_not_round :
    (render_pupil_2d ⟨⟨(0, 0), (2, 2), 0⟩, 1 / 2⟩).map DrawCmd.alpha = [127, 127] ∧
    round ((1 / 2 : ℝ) * 255) = 128 ∧
    ((127 : ℝ) ≠ ((round ((1 / 2 : ℝ) * 255) : ℤ) : ℝ)) := by
  have ht : truncInt (((2 : ℝ))⁻¹ * 255) = 127 := by
    rw [truncInt, if_pos (by norm_num)]
    norm_num [Int.floor_eq_iff]
  have hr : round ((1 / 2 : ℝ) * 255) = 128 := by
    norm_num [round_eq, Int.floor_eq_iff]
  refine ⟨?_, hr, ?_⟩
  · simp [render_pupil_2d, render_ellipse, DrawCmd.alpha, DrawCmd.color, ht]
  · rw [hr]
    norm_num

/-- C4 (amended): the alpha of the 2D and 3D pupil-ellipse drawing color
is `int(confidence * 255)`, i.e. `confidence * 255` truncated toward zero
(`⌊confidence * 255⌋` since confidence is non-negative); the projected
sphere's drawing color carries `255 * model_confidence` directly. -/
theorem C4_alpha_truncation (el : Ellipse) (conf mc : ℝ) (hc : 0 ≤ conf)
    (x y ax ay ang : ℝ) :
    (render_pupil_2d ⟨el, conf⟩).map DrawCmd.alpha =
      [(⌊conf * 255⌋ : ℝ), (⌊conf * 255⌋ : ℝ)] ∧
    Except.map (List.map DrawCmd.alpha) (render_pupil_3d ⟨el, conf, mc, Option.none⟩) =
      .ok [(⌊conf * 255⌋ : ℝ), (⌊conf * 255⌋ : ℝ)] ∧
    sphereCmd ⟨(.val x, .val y), (.val ax, .val ay), .val ang⟩ mc =
      .ok (.cvEllipse (truncInt x, truncInt y) (truncInt (ax / 2), truncInt (ay / 2))
        (truncInt ang) 0 360 (26, 230, 0, 255 * mc) 2) := by
  have ht : truncInt (conf * 255) = ⌊conf * 255⌋ := by
    rw [truncInt, if_pos (mul_nonneg hc (by norm_num))]
  refine ⟨?_, ?_, ?_⟩
  · simp [render_pupil_2d, render_ellipse, DrawCmd.alpha, DrawCmd.color, ht]
  · simp [render_pupil_3d, render_ellipse, DrawCmd.alpha, DrawCmd.color, ht, Except.map]
  · simp [sphereCmd, pyInt, PyFloat.halve]

/-- Witness for C4 (amended) at confidence `1/2`. -/
theorem C4_witness :
    (0 : ℝ) ≤ 1 / 2 ∧
    (render_pupil_2d ⟨⟨(0, 0), (2, 2), 0⟩, 1 / 2⟩).map DrawCmd.alpha =
      [(⌊(1 / 2 : ℝ) * 255⌋ : ℝ), (⌊(1 / 2 : ℝ) * 255⌋ : ℝ)] :=
  ⟨by norm_num,
   (C4_alpha_truncation ⟨(0, 0), (2, 2), 0⟩ (1 / 2) 0 (by norm_num) 0 0 0 0 0).1⟩

/-- C5: when the projected sphere's axes or angle is NaN, the sphere's
`cv2.ellipse` call raises exactly the locally-caught `ValueError`, the
render call completes without raising (the 3D pupil ellipse is still
drawn), and at the `apply_to` level the frame renders exactly as if the
sphere were absent — all other overlay elements are drawn. -/
theorem C5_nan_sphere_skipped {Img : Type} (d2 : PyOpt Pupil2d) (image : Img)
    (p3 : Pupil3d) (s : ProjectedSphere)
    (hs : p3.projected_sphere = some s)
    (hnan : s.axes.1 = .nan ∨ s.axes.2 = .nan ∨ s.angle = .nan) :
    sphereCmd s p3.model_confidence = .error .valueError ∧
    render_pupil_3d p3 =
      .ok (render_ellipse p3.ellipse (0, 0, 255, (truncInt (p3.confidence * 255) : ℝ))) ∧
    PupilRenderer.apply_to (d2, .val p3) image true false =
      PupilRenderer.apply_to (d2, .val { p3 with projected_sphere := Option.none })
        image true false := by
  obtain ⟨⟨sc1, sc2⟩, ⟨sa1, sa2⟩, sang⟩ := s
  simp only at hnan
  have hcmd : sphereCmd ⟨(sc1, sc2), (sa1, sa2), sang⟩ p3.model_confidence =
      .error .valueError := by
    cases sc1 <;> cases sc2 <;> cases sa1 <;> cases sa2 <;> cases sang <;>
      simp_all [sphereCmd, pyInt, PyFloat.halve]
  refine ⟨hcmd, ?_, ?_⟩
  · simp [render_pupil_3d, hs, hcmd]
  · simp [PupilRenderer.apply_to, render_pupil_3d, hs, hcmd]

/-- Witness for C5: a sphere with NaN angle on an otherwise sane 3D
datum. -/
theorem C5_witness :
    ((Pupil3d.mk ⟨(0, 0), (2, 2), 0⟩ 1 1
        (some ⟨(.val 0, .val 0), (.val 2, .val 2), .nan⟩)).projected_sphere =
      some ⟨(.val 0, .val 0), (.val 2, .val 2), .nan⟩ ∧
      ((PyFloat.val 0 : PyFloat) = .nan ∨ (PyFloat.val 0 : PyFloat) = .nan ∨
        (PyFloat.nan : PyFloat) = .nan)) ∧
    sphereCmd ⟨(.val 0, .val 0), (.val 2, .val 2), .nan⟩ 1 = .error .valueError :=
  ⟨⟨rfl, Or.inr (Or.inr rfl)⟩,
   (C5_nan_sphere_skipped PyOpt.none (0 : ℕ)
     (Pupil3d.mk ⟨(0, 0), (2, 2), 0⟩ 1 1
       (some ⟨(.val 0, .val 0), (.val 2, .val 2), .nan⟩))
     ⟨(.val 0, .val 0), (.val 2, .val 2), .nan⟩ rfl (Or.inr (Or.inr rfl))).1⟩

/-- C1: `get_ellipse_points` samples the ellipse boundary at `num_pts`
(default 10) evenly spaced parameters `t = 2πk/N` over `[0, 2π)` as
`(a/2 · cos t, b/2 · sin t)`, applies the rotation matrix produced by
`cv2.getRotationMatrix2D((0,0), -angle, 1)` — which in standard
(counterclockwise-positive) coordinates is the matrix
`[[cos φ, -sin φ], [sin φ, cos φ]]` at `φ = angle·π/180`, OpenCV's
rotation by `-angle` degrees about the origin — and translates by the
center; in particular for `center=(0,0)`, `axes=(2,2)`, `angle=0`,
`num_pts=4` the points are exactly `(1,0), (0,1), (-1,0), (0,-1)`. -/
theorem C1_get_ellipse_points_sampling :
    (∀ (c1 c2 a b angle : ℝ) (N : ℕ),
      get_ellipse_points (c1, c2) (a, b) angle N =
        (List.range N).map (fun (k : ℕ) =>
          (c1 + (a / 2 * Real.cos (2 * π * (k : ℝ) / (N : ℝ)) * Real.cos (angle * π / 180) -
                 b / 2 * Real.sin (2 * π * (k : ℝ) / (N : ℝ)) * Real.sin (angle * π / 180)),
           c2 + (a / 2 * Real.cos (2 * π * (k : ℝ) / (N : ℝ)) * Real.sin (angle * π / 180) +
                 b / 2 * Real.sin (2 * π * (k : ℝ) / (N : ℝ)) * Real.cos (angle * π / 180))))) ∧
    (∀ (center axes : ℝ × ℝ) (angle : ℝ),
      get_ellipse_points center axes angle = get_ellipse_points center axes angle 10) ∧
    get_ellipse_points (0, 0) (2, 2) 0 4 = [(1, 0), (0, 1), (-1, 0), (0, -1)] := by
  have hmain : ∀ (c1 c2 a b angle : ℝ) (N : ℕ),
      get_ellipse_points (c1, c2) (a, b) angle N =
        (List.range N).map (fun (k : ℕ) =>
          (c1 + (a / 2 * Real.cos (2 * π * (k : ℝ) / (N : ℝ)) * Real.cos (angle * π / 180) -
                 b / 2 * Real.sin (2 * π * (k : ℝ) / (N : ℝ)) * Real.sin (angle * π / 180)),
           c2 + (a / 2 * Real.cos (2 * π * (k : ℝ) / (N : ℝ)) * Real.sin (angle * π / 180) +
                 b / 2 * Real.sin (2 * π * (k : ℝ) / (N : ℝ)) * Real.cos (angle * π / 180)))) := by
    intro c1 c2 a b angle N
    simp only [get_ellipse_points, linspace_endpointFalse, getRotationMatrix2D,
      AffineMat.apply, List.map_map]
    refine List.map_congr_left ?_
    intro k hk
    simp only [Function.comp_apply, Function.comp_def]
    have harg : (0 : ℝ) + (2 * π - 0) * k / N = 2 * π * k / N := by ring
    have hneg : -angle * π / 180 = -(angle * π / 180) := by ring
    rw [harg, hneg, Real.cos_neg, Real.sin_neg]
    simp only [Prod.mk.injEq]
    constructor <;> ring
  refine ⟨hmain, fun center axes angle => rfl, ?_⟩
  rw [hmain 0 0 2 2 0 4]
  have hr : List.range 4 = [0, 1, 2, 3] := rfl
  rw [hr]
  simp only [List.map_cons, List.map_nil]
  have k0 : 2 * π * ((0 : ℕ) : ℝ) / ((4 : ℕ) : ℝ) = 0 := by
    push_cast
    ring
  have k1 : 2 * π * ((1 : ℕ) : ℝ) / ((4 : ℕ) : ℝ) = π / 2 := by
    push_cast
    ring
  have k2 : 2 * π * ((2 : ℕ) : ℝ) / ((4 : ℕ) : ℝ) = π := by
    push_cast
    ring
  have k3 : 2 * π * ((3 : ℕ) : ℝ) / ((4 : ℕ) : ℝ) = π + π / 2 := by
    push_cast
    ring
  have hang : (0 : ℝ) * π / 180 = 0 := by ring
  rw [k0, k1, k2, k3, hang]
  simp only [Real.cos_zero, Real.sin_zero, Real.cos_pi_div_two, Real.sin_pi_div_two,
    Real.cos_pi, Real.sin_pi, Real.cos_add, Real.sin_add]
  norm_num

end ImageManipulation
